import Mathlib

/-
Shallow embedding of src/custom_random_forest.py (class RandomForestClassifierCustom).

Modelling conventions:
* Matrices are rectangular lists of lists of rationals (numpy float arrays are
  modelled with exact rationals; numpy arrays are always rectangular).
* numpy's global random generator is modelled by the abstract structure RNGSpec:
  an opaque-state stream with the documented contract of np.random.choice
  (sample size, ranges, distinctness for replace=False).  np.random.seed(s)
  resets the state to seedState s.
* sklearn's DecisionTreeClassifier is the external base learner; it is modelled
  by the capability structure BaseLearner (fit may fail, producing a fitted
  model that supports predict_proba), matching how the forest uses it.
* Python exceptions are modelled by the Except monad over PyError.  The
  constructors shapeError, notFittedError and configError model error classes
  named by the specification; the code itself only ever produces indexError
  (out-of-range indexing) and valueError (numpy/zip argument errors,
  ProcessPoolExecutor max_workers=0).
* ProcessPoolExecutor: executor.map and the submit/result loop both return the
  per-unit results in input-index order regardless of completion order, and the
  first raised exception (in index order) propagates; a worker count n_jobs = 0
  makes the pool constructor raise ValueError, and otherwise n_jobs only bounds
  concurrency.  This is reflected by collecting results in index order with
  fail-fast semantics and by an explicit n_jobs = 0 guard.
* The source's max_features=None constructor default is not modelled: every
  run exercised by the specification supplies an integer max_features, and
  np.random.choice with size=None has scalar (not array) semantics.
-/

abbrev Mat := List (List ℚ)

/-- Number of rows of a matrix (X.shape[0]). -/
def nrows (X : Mat) : ℕ := X.length

/-- Number of columns of a rectangular matrix (X.shape[1]). -/
def ncols (X : Mat) : ℕ := (X.headD []).length

/-- Entry of a matrix at row r, column c (0 outside the shape; only used in
range). -/
def entry (m : Mat) (r c : ℕ) : ℚ := (m.getD r []).getD c 0

/-- Python exceptions relevant to the embedded code paths.  The last three
constructors are the error classes named by the specification; they are needed
to state the specification's claims, and the embedded code never produces
them. -/
inductive PyError where
  | indexError
  | valueError
  | shapeError
  | notFittedError
  | configError
  deriving DecidableEq

/-- A fitted base learner: supports predict_proba on a matrix restricted to the
feature subset it was trained on, returning a (rows x classes) matrix. -/
structure FittedTree where
  proba : Mat → Mat

/-- Degenerate tree used only as a List.getD default under an in-range index. -/
def defaultTree : FittedTree := ⟨fun _ => []⟩

/-- The external base-learner capability (sklearn.tree.DecisionTreeClassifier
as used by the source): fitTree max_depth max_features random_state X_sub y_sub
either fails or returns a fitted model. -/
structure BaseLearner where
  fitTree : Option ℕ → ℕ → ℤ → Mat → List ℤ → Except PyError FittedTree

/-- Abstract model of numpy's global random generator.  The state is a natural
number; seedState models np.random.seed; choiceNoRep s n k models
np.random.choice(range(n), k, replace=False) run in state s, returning the
sample and the successor state; choiceRep likewise with replace=True.  The
contract fields state the documented behaviour of np.random.choice: with
replace=False the sample has k distinct values drawn from range(n) (defined
when k <= n), with replace=True the sample has k values drawn from range(n)
(defined when n is nonempty). -/
structure RNGSpec where
  seedState : ℤ → ℕ
  choiceNoRep : ℕ → ℕ → ℕ → List ℕ × ℕ
  choiceRep : ℕ → ℕ → ℕ → List ℕ × ℕ
  choiceNoRep_length : ∀ s n k, k ≤ n → (choiceNoRep s n k).1.length = k
  choiceNoRep_lt : ∀ s n k, k ≤ n → ∀ v ∈ (choiceNoRep s n k).1, v < n
  choiceNoRep_nodup : ∀ s n k, k ≤ n → (choiceNoRep s n k).1.Nodup
  choiceRep_length : ∀ s n k, 0 < n → (choiceRep s n k).1.length = k
  choiceRep_lt : ∀ s n k, 0 < n → ∀ v ∈ (choiceRep s n k).1, v < n

/-- np.random.choice(range(n), k, replace=False): raises ValueError when the
requested sample is larger than the population. -/
def npChoiceNoRep (R : RNGSpec) (s n k : ℕ) : Except PyError (List ℕ × ℕ) :=
  if k ≤ n then .ok (R.choiceNoRep s n k) else .error .valueError

/-- np.random.choice(range(n), k, replace=True): raises ValueError when the
population range(n) is empty. -/
def npChoiceRep (R : RNGSpec) (s n k : ℕ) : Except PyError (List ℕ × ℕ) :=
  if 0 < n then .ok (R.choiceRep s n k) else .error .valueError

/-- numpy fancy row indexing X[ids, :]: IndexError when an index is out of
range, otherwise the selected rows in order (repetitions allowed). -/
def npRows (X : Mat) (ids : List ℕ) : Except PyError Mat :=
  if ids.all (fun j => j < nrows X) then .ok (ids.map fun j => X.getD j [])
  else .error .indexError

/-- Total column restriction X[:, ids] on a rectangular matrix. -/
def colsRestrict (X : Mat) (ids : List ℕ) : Mat :=
  X.map fun row => ids.map fun j => row.getD j 0

/-- numpy fancy column indexing X[:, ids]: IndexError when an index reaches
past the column count, otherwise the selected columns of every row. -/
def npCols (X : Mat) (ids : List ℕ) : Except PyError Mat :=
  if ids.all (fun j => j < ncols X) then .ok (colsRestrict X ids)
  else .error .indexError

/-- numpy fancy vector indexing y[ids]: IndexError when an index is out of
range. -/
def npIndex (y : List ℤ) (ids : List ℕ) : Except PyError (List ℤ) :=
  if ids.all (fun j => j < y.length) then .ok (ids.map fun j => y.getD j 0)
  else .error .indexError

/-- Python list indexing l[i]: IndexError out of range. -/
def elemAt {α : Type} (l : List α) (i : ℕ) : Except PyError α :=
  match l.get? i with
  | some a => .ok a
  | none => .error .indexError

/-- Gathering the results of the dispatched units in input-index order with
fail-fast propagation of the first exception, as executor.map / the ordered
future.result() loop do. -/
def collect {α : Type} : List (Except PyError α) → Except PyError (List α)
  | [] => .ok []
  | .error e :: _ => .error e
  | .ok a :: rest => (collect rest).map (fun l => a :: l)

/-- np.mean(ms, axis=0) on a nonempty list of equal-shape matrices: the
entrywise arithmetic mean.  The shape is read off the first matrix (the Base
Learner contract makes all per-tree probability matrices share one shape). -/
def npMeanAxis0 (ms : List Mat) : Mat :=
  (List.range (ms.headD []).length).map fun r =>
    (List.range (ncols (ms.headD []))).map fun c =>
      (ms.map fun p => entry p r c).sum / (ms.length : ℚ)

/-- np.argmax on one row: the first index attaining the maximum (length for the
empty row, which numpy rejects; never reached here). -/
def npArgmax (row : List ℚ) : ℕ :=
  row.findIdx fun x => row.all fun y => y ≤ x

/-- sorted(np.unique(y)): the sorted list of distinct values of y. -/
def sortedUnique (y : List ℤ) : List ℤ :=
  y.dedup.insertionSort (fun a b => a ≤ b)

/-- The mutable attribute state of a RandomForestClassifierCustom instance.
classes_ is none while the attribute has never been assigned. -/
structure RandomForestClassifierCustom where
  n_estimators : ℕ
  max_depth : Option ℕ
  max_features : ℕ
  random_state : ℤ
  trees : List FittedTree
  feat_ids_by_tree : List (List ℕ)
  classes_ : Option (List ℤ)

namespace RandomForestClassifierCustom

/-- The constructor: stores the configuration unvalidated and initialises
trees and feat_ids_by_tree to empty lists. -/
def init (n_estimators : ℕ) (max_depth : Option ℕ) (max_features : ℕ)
    (random_state : ℤ) : RandomForestClassifierCustom :=
  { n_estimators := n_estimators
    max_depth := max_depth
    max_features := max_features
    random_state := random_state
    trees := []
    feat_ids_by_tree := []
    classes_ := none }

end RandomForestClassifierCustom

/-- The first three statements of _fit_loop, factored out: np.random.seed
(random_state + i), then feat_ids = np.random.choice(range(cols),
max_features, replace=False), then x_ids_bootstrap = np.random.choice
(range(rows), rows, replace=True).  Returns (feat_ids, x_ids_bootstrap). -/
def samplingOfFitLoop (R : RNGSpec) (random_state : ℤ)
    (i rows cols max_features : ℕ) : Except PyError (List ℕ × List ℕ) := do
  let fs ← npChoiceNoRep R (R.seedState (random_state + i)) cols max_features
  let xs ← npChoiceRep R fs.2 rows rows
  pure (fs.1, xs.1)

/-- _fit_loop(self, i, X, y): seeds with random_state + i, draws the feature
subset then the row bootstrap, builds the slice X[x_ids, :][:, feat_ids] and
y[x_ids], fits one base learner on it and returns (clf, feat_ids). -/
def fitLoop (R : RNGSpec) (B : BaseLearner) (F : RandomForestClassifierCustom)
    (i : ℕ) (X : Mat) (y : List ℤ) : Except PyError (FittedTree × List ℕ) := do
  let plan ← samplingOfFitLoop R F.random_state i (nrows X) (ncols X) F.max_features
  let Xboot ← npRows X plan.2
  let Xsub ← npCols Xboot plan.1
  let ysub ← npIndex y plan.2
  let clf ← B.fitTree F.max_depth F.max_features F.random_state Xsub ysub
  pure (clf, plan.1)

/-- fit(self, X, y, n_jobs): first assigns self.classes_ = sorted(np.unique
(y)); then dispatches _fit_loop for every tree index through the pool
(ValueError from the pool constructor when n_jobs = 0); on success of every
unit, unpacks zip(*results) into self.trees and self.feat_ids_by_tree
(ValueError when results is empty).  Returns the final attribute state paired
with the propagated exception, if any. -/
def fitS (R : RNGSpec) (B : BaseLearner) (F : RandomForestClassifierCustom)
    (X : Mat) (y : List ℤ) (n_jobs : ℕ) :
    RandomForestClassifierCustom × Option PyError :=
  let F1 := { F with classes_ := some (sortedUnique y) }
  if n_jobs = 0 then (F1, some .valueError)
  else
    match collect ((List.range F1.n_estimators).map fun i => fitLoop R B F1 i X y) with
    | .error e => (F1, some e)
    | .ok results =>
      match results with
      | [] => (F1, some .valueError)
      | _ =>
        ({ F1 with trees := results.map Prod.fst
                   feat_ids_by_tree := results.map Prod.snd }, none)

/-- _predict_proba_loop(self, X, clf, feat_ids): clf.predict_proba
(X[:, feat_ids]). -/
def predictProbaLoop (X : Mat) (clf : FittedTree) (feat_ids : List ℕ) :
    Except PyError Mat := do
  let Xsub ← npCols X feat_ids
  pure (clf.proba Xsub)

/-- predict_proba(self, X, n_jobs): the submission loop reads self.trees[i]
and self.feat_ids_by_tree[i] for every i in range(n_estimators) (IndexError
when the forest holds fewer trees), the pool evaluates _predict_proba_loop for
every unit, the results are gathered in index order, and their entrywise mean
np.mean(y_pred_s, axis=0) is returned. -/
def predictProbaS (F : RandomForestClassifierCustom) (X : Mat) (n_jobs : ℕ) :
    Except PyError Mat :=
  if n_jobs = 0 then .error .valueError
  else do
    let units ← collect ((List.range F.n_estimators).map fun i => do
      let t ← elemAt F.trees i
      let fids ← elemAt F.feat_ids_by_tree i
      pure (t, fids))
    let y_pred_s ← collect (units.map fun u => predictProbaLoop X u.1 u.2)
    pure (npMeanAxis0 y_pred_s)

/-- predict(self, X, n_jobs): np.argmax(self.predict_proba(X, n_jobs),
axis=1) — the vector of per-row argmax indices. -/
def predictS (F : RandomForestClassifierCustom) (X : Mat) (n_jobs : ℕ) :
    Except PyError (List ℕ) := do
  let probas ← predictProbaS F X n_jobs
  pure (probas.map npArgmax)

/-- The probability matrix tree number i contributes inside predict_proba:
its model applied to X restricted to its stored feature subset. -/
def treePrediction (F : RandomForestClassifierCustom) (X : Mat) (i : ℕ) : Mat :=
  (F.trees.getD i defaultTree).proba (colsRestrict X (F.feat_ids_by_tree.getD i []))

/-- A concrete RNGSpec instance, used to evaluate the development on explicit
inputs.  The feature draw returns the first k indices and advances the state
by k + 1; the bootstrap draw returns k copies of state mod n. -/
def rngA : RNGSpec where
  seedState s := s.natAbs
  choiceNoRep s _ k := (List.range k, s + k + 1)
  choiceRep s n k := (List.replicate k (s % n), s + 1)
  choiceNoRep_length := fun _ _ k _ => List.length_range k
  choiceNoRep_lt := fun _ n k hk v hv => lt_of_lt_of_le (List.mem_range.mp hv) hk
  choiceNoRep_nodup := fun _ _ k _ => List.nodup_range k
  choiceRep_length := fun s n k _ => List.length_replicate k (s % n)
  choiceRep_lt := fun s n _ hn v hv => by
    rcases List.eq_of_mem_replicate hv with rfl
    exact Nat.mod_lt _ hn

/-- A base learner whose fitted model always answers the fixed probability
matrix m. -/
def constTree (m : Mat) : FittedTree := ⟨fun _ => m⟩

/-- A base learner that always fits successfully. -/
def learnerOk : BaseLearner := ⟨fun _ _ _ _ _ => .ok (constTree [[1, 0]])⟩

/-- A base learner whose every fit attempt fails: one failing per-tree unit. -/
def learnerFail : BaseLearner := ⟨fun _ _ _ _ _ => .error .valueError⟩

/-- A forest in an already-fitted state: one tree answering [[1, 0]] on its
single stored feature column, with class registry [0, 1]. -/
def prefitForest : RandomForestClassifierCustom :=
  { n_estimators := 1
    max_depth := none
    max_features := 1
    random_state := 0
    trees := [constTree [[1, 0]]]
    feat_ids_by_tree := [[0]]
    classes_ := some [0, 1] }

/-- A fitted forest whose training labels were 5 and 7: class registry
[5, 7], one tree putting all probability mass on the first class. -/
def forestLabels57 : RandomForestClassifierCustom :=
  { n_estimators := 1
    max_depth := none
    max_features := 1
    random_state := 0
    trees := [constTree [[1, 0]]]
    feat_ids_by_tree := [[0]]
    classes_ := some [5, 7] }

/-- A fitted two-tree forest used to evaluate the ensemble theorems on a
concrete input: the trees put all mass on opposite classes. -/
def twoTreeForest : RandomForestClassifierCustom :=
  { n_estimators := 2
    max_depth := none
    max_features := 1
    random_state := 0
    trees := [constTree [[1, 0]], constTree [[0, 1]]]
    feat_ids_by_tree := [[0], [0]]
    classes_ := some [0, 1] }

lemma elemAt_eq_ok {α : Type} (l : List α) (i : ℕ) (d : α) (h : i < l.length) :
    elemAt l i = .ok (l.getD i d) := by
  unfold elemAt
  rw [List.get?_eq_getElem?, List.getElem?_eq_getElem h, List.getD_eq_getElem l d h]

lemma collect_map_ok {α β : Type} (l : List α) (f : α → Except PyError β) (g : α → β)
    (h : ∀ a ∈ l, f a = .ok (g a)) : collect (l.map f) = .ok (l.map g) := by
  induction l with
  | nil => rfl
  | cons a t ih =>
    simp only [List.map_cons]
    rw [show f a = .ok (g a) from h a (by simp), collect,
      ih (fun x hx => h x (by simp [hx]))]
    rfl

lemma collect_range_error_head {β : Type} (n : ℕ) (hn : 0 < n)
    (f : ℕ → Except PyError β) (e : PyError) (h : f 0 = .error e) :
    collect ((List.range n).map f) = .error e := by
  obtain ⟨m, rfl⟩ := Nat.exists_eq_succ_of_ne_zero (Nat.pos_iff_ne_zero.mp hn)
  rw [List.range_succ_eq_map]
  simp only [List.map_cons]
  rw [h]
  rfl

lemma exBind_ok {α β : Type} (a : α) (f : α → Except PyError β) :
    (Except.ok a >>= f) = f a := rfl

lemma exBind_error {α β : Type} (e : PyError) (f : α → Except PyError β) :
    ((Except.error e : Except PyError α) >>= f) = Except.error e := rfl

lemma exPure_eq_ok {α : Type} (a : α) :
    (pure a : Except PyError α) = Except.ok a := rfl

lemma headD_map_range {β : Type} (n : ℕ) (hn : 0 < n) (f : ℕ → β) (d : β) :
    ((List.range n).map f).headD d = f 0 := by
  obtain ⟨m, rfl⟩ := Nat.exists_eq_succ_of_ne_zero (Nat.pos_iff_ne_zero.mp hn)
  rw [List.range_succ_eq_map]
  rfl

lemma npMeanAxis0_map_range (n : ℕ) (hn : 0 < n) (f : ℕ → Mat) :
    npMeanAxis0 ((List.range n).map f) =
      (List.range (f 0).length).map fun r =>
        (List.range (ncols (f 0))).map fun c =>
          (((List.range n).map fun i => entry (f i) r c).sum) / (n : ℚ) := by
  unfold npMeanAxis0
  rw [headD_map_range n hn]
  simp [List.map_map, Function.comp_def]

/-- Under the shape discipline of a fitted forest, predict_proba succeeds and
returns the entrywise mean of the per-tree probability matrices. -/
lemma predictProbaS_eq_mean (F : RandomForestClassifierCustom) (X : Mat) (nj : ℕ)
    (hnj : nj ≠ 0)
    (hts : F.trees.length = F.n_estimators)
    (hfs : F.feat_ids_by_tree.length = F.n_estimators)
    (hcols : ∀ fids ∈ F.feat_ids_by_tree, ∀ j ∈ fids, j < ncols X) :
    predictProbaS F X nj =
      .ok (npMeanAxis0 ((List.range F.n_estimators).map fun i => treePrediction F X i)) := by
  unfold predictProbaS
  rw [if_neg hnj]
  rw [collect_map_ok (List.range F.n_estimators) _
      (fun i => (F.trees.getD i defaultTree, F.feat_ids_by_tree.getD i [])) ?hunits]
  case hunits =>
    intro i hi
    have hi1 : i < F.trees.length := by rw [hts]; exact List.mem_range.mp hi
    have hi2 : i < F.feat_ids_by_tree.length := by rw [hfs]; exact List.mem_range.mp hi
    rw [elemAt_eq_ok F.trees i defaultTree hi1]
    simp only [exBind_ok]
    rw [elemAt_eq_ok F.feat_ids_by_tree i [] hi2]
    simp only [exBind_ok]
    rfl
  simp only [exBind_ok]
  rw [List.map_map]
  rw [collect_map_ok (List.range F.n_estimators) _
      (fun i => treePrediction F X i) ?hpreds]
  case hpreds =>
    intro i hi
    have hi2 : i < F.feat_ids_by_tree.length := by rw [hfs]; exact List.mem_range.mp hi
    have hmem : F.feat_ids_by_tree.getD i [] ∈ F.feat_ids_by_tree := by
      rw [List.getD_eq_getElem _ _ hi2]
      exact List.getElem_mem hi2
    have hall : (F.feat_ids_by_tree.getD i []).all (fun j => j < ncols X) := by
      rw [List.all_eq_true]
      intro j hj
      exact decide_eq_true (hcols _ hmem j hj)
    show predictProbaLoop X (F.trees.getD i defaultTree) (F.feat_ids_by_tree.getD i []) =
      .ok (treePrediction F X i)
    unfold predictProbaLoop npCols
    rw [if_pos hall]
    simp only [exBind_ok]
    rfl
  simp only [exBind_ok, exPure_eq_ok]

/-- C1: for a fitted forest, predict_proba(X) is, entry by entry, the
unweighted arithmetic mean over all n_estimators trees of that tree's
predicted probability for that row and class — no weighting and no majority
vote on hard labels. -/
theorem C1_predict_proba_is_unweighted_mean (F : RandomForestClassifierCustom)
    (X : Mat) (nj : ℕ) (hnj : nj ≠ 0)
    (hts : F.trees.length = F.n_estimators)
    (hfs : F.feat_ids_by_tree.length = F.n_estimators)
    (hpos : 0 < F.n_estimators)
    (hcols : ∀ fids ∈ F.feat_ids_by_tree, ∀ j ∈ fids, j < ncols X) :
    predictProbaS F X nj =
      .ok ((List.range (treePrediction F X 0).length).map fun r =>
        (List.range (ncols (treePrediction F X 0))).map fun c =>
          (((List.range F.n_estimators).map fun i => entry (treePrediction F X i) r c).sum) /
            (F.n_estimators : ℚ)) := by
  rw [predictProbaS_eq_mean F X nj hnj hts hfs hcols,
    npMeanAxis0_map_range F.n_estimators hpos]

/-- C1 witness: the mean formula evaluated on a concrete two-tree forest. -/
theorem C1_witness :
    ((1 : ℕ) ≠ 0 ∧ twoTreeForest.trees.length = twoTreeForest.n_estimators ∧
      twoTreeForest.feat_ids_by_tree.length = twoTreeForest.n_estimators ∧
      0 < twoTreeForest.n_estimators ∧
      ∀ fids ∈ twoTreeForest.feat_ids_by_tree, ∀ j ∈ fids, j < ncols [[3]]) ∧
    predictProbaS twoTreeForest [[3]] 1 =
      .ok ((List.range (treePrediction twoTreeForest [[3]] 0).length).map fun r =>
        (List.range (ncols (treePrediction twoTreeForest [[3]] 0))).map fun c =>
          (((List.range twoTreeForest.n_estimators).map fun i =>
            entry (treePrediction twoTreeForest [[3]] i) r c).sum) /
            (twoTreeForest.n_estimators : ℚ)) :=
  ⟨⟨by decide, by decide, by decide, by decide, by decide⟩,
    C1_predict_proba_is_unweighted_mean twoTreeForest [[3]] 1 (by decide) (by decide)
      (by decide) (by decide) (by decide)⟩

lemma exists_max_mem (row : List ℚ) (h : row ≠ []) : ∃ m ∈ row, ∀ y ∈ row, y ≤ m := by
  induction row with
  | nil => exact absurd rfl h
  | cons a t ih =>
    by_cases ht : t = []
    · subst ht
      refine ⟨a, by simp, ?_⟩
      intro y hy
      rcases List.mem_cons.mp hy with rfl | hy
      · exact le_refl y
      · simp at hy
    · obtain ⟨m, hm, hall⟩ := ih ht
      rcases le_total a m with hle | hle
      · refine ⟨m, by simp [hm], ?_⟩
        intro y hy
        rcases List.mem_cons.mp hy with rfl | hy
        exacts [hle, hall y hy]
      · refine ⟨a, by simp, ?_⟩
        intro y hy
        rcases List.mem_cons.mp hy with rfl | hy
        exacts [le_refl y, le_trans (hall y hy) hle]

lemma npArgmax_lt_length (row : List ℚ) (h : row ≠ []) : npArgmax row < row.length := by
  obtain ⟨m, hm, hall⟩ := exists_max_mem row h
  refine List.findIdx_lt_length_of_exists ⟨m, hm, ?_⟩
  rw [List.all_eq_true]
  intro y hy
  exact decide_eq_true (hall y hy)

lemma npArgmax_is_max (row : List ℚ) (h : row ≠ []) :
    ∀ j, j < row.length → row.getD j 0 ≤ row.getD (npArgmax row) 0 := by
  intro j hj
  have hlt : npArgmax row < row.length := npArgmax_lt_length row h
  have hp := List.findIdx_getElem (w := hlt)
  rw [List.all_eq_true] at hp
  rw [List.getD_eq_getElem row 0 hj, List.getD_eq_getElem row 0 hlt]
  exact of_decide_eq_true (hp (row.get ⟨j, hj⟩) (List.get_mem row j hj))

lemma npArgmax_first_max (row : List ℚ) (h : row ≠ []) :
    ∀ j, j < npArgmax row → row.getD j 0 < row.getD (npArgmax row) 0 := by
  intro j hj
  have hlt : npArgmax row < row.length := npArgmax_lt_length row h
  have hjlen : j < row.length := lt_trans hj hlt
  have hp := List.not_of_lt_findIdx hj
  rw [Bool.eq_false_iff, Ne, List.all_eq_true] at hp
  push_neg at hp
  obtain ⟨y, hy, hyx⟩ := hp
  have h1 : row.getD j 0 < y := by
    rw [List.getD_eq_getElem row 0 hjlen]
    exact lt_of_not_le fun hle => hyx (decide_eq_true hle)
  have h2 : y ≤ row.getD (npArgmax row) 0 := by
    obtain ⟨k, hk, rfl⟩ := List.mem_iff_getElem.mp hy
    rw [← List.getD_eq_getElem row 0 hk]
    exact npArgmax_is_max row h k hk
  exact lt_of_lt_of_le h1 h2

/-- C2 counterexample: a forest fitted on labels 5 and 7 (ClassRegistry
[5, 7]) whose single tree puts all probability mass on class 5.  predict
returns 0, the argmax index, which is not a member of the ClassRegistry, so
predict does not return the class from ClassRegistry attaining the maximum
mean probability. -/
theorem C2_counterexample :
    predictS forestLabels57 [[0]] 1 = .ok [0] ∧
    forestLabels57.classes_ = some [5, 7] ∧
    ((0 : ℤ) ∈ [(5 : ℤ), 7] → False) := by
  refine ⟨?_, rfl, by decide⟩
  norm_num [predictS, predictProbaS, collect, elemAt, predictProbaLoop, npCols, npMeanAxis0,
    entry, forestLabels57, constTree, colsRestrict, ncols, List.range_succ, npArgmax,
    List.findIdx, List.findIdx.go, Except.map, exBind_ok, exPure_eq_ok]

/-- C2 (amended): predict(X) returns, for each row, the index within
ClassRegistry of the class attaining the maximum mean probability — not the
class label itself — with ties broken by the first such index; the index is
always below the row's class count, so when the training labels are 0..k-1
(in particular {0, 1}) the indices coincide with the labels. -/
theorem C2_predict_is_argmax_index (F : RandomForestClassifierCustom)
    (X : Mat) (nj : ℕ) (hnj : nj ≠ 0)
    (hts : F.trees.length = F.n_estimators)
    (hfs : F.feat_ids_by_tree.length = F.n_estimators)
    (hcols : ∀ fids ∈ F.feat_ids_by_tree, ∀ j ∈ fids, j < ncols X) :
    predictS F X nj =
      .ok ((npMeanAxis0 ((List.range F.n_estimators).map fun i =>
        treePrediction F X i)).map npArgmax) ∧
    ∀ row : List ℚ, row ≠ [] →
      npArgmax row < row.length ∧
      (∀ j, j < row.length → row.getD j 0 ≤ row.getD (npArgmax row) 0) ∧
      (∀ j, j < npArgmax row → row.getD j 0 < row.getD (npArgmax row) 0) := by
  constructor
  · unfold predictS
    rw [predictProbaS_eq_mean F X nj hnj hts hfs hcols]
    simp only [exBind_ok, exPure_eq_ok]
  · intro row hrow
    exact ⟨npArgmax_lt_length row hrow, npArgmax_is_max row hrow,
      npArgmax_first_max row hrow⟩

/-- C2 witness: the amended statement evaluated on the concrete two-tree
forest. -/
theorem C2_witness :
    ((1 : ℕ) ≠ 0 ∧ twoTreeForest.trees.length = twoTreeForest.n_estimators ∧
      twoTreeForest.feat_ids_by_tree.length = twoTreeForest.n_estimators ∧
      ∀ fids ∈ twoTreeForest.feat_ids_by_tree, ∀ j ∈ fids, j < ncols [[3]]) ∧
    (predictS twoTreeForest [[3]] 1 =
      .ok ((npMeanAxis0 ((List.range twoTreeForest.n_estimators).map fun i =>
        treePrediction twoTreeForest [[3]] i)).map npArgmax) ∧
    ∀ row : List ℚ, row ≠ [] →
      npArgmax row < row.length ∧
      (∀ j, j < row.length → row.getD j 0 ≤ row.getD (npArgmax row) 0) ∧
      (∀ j, j < npArgmax row → row.getD j 0 < row.getD (npArgmax row) 0)) :=
  ⟨⟨by decide, by decide, by decide, by decide⟩,
    C2_predict_is_argmax_index twoTreeForest [[3]] 1 (by decide) (by decide) (by decide)
      (by decide)⟩

/-- C3: the per-tree sampling plan is a pure function of (tree_index,
row_count, feature_count, max_features, base_seed): two forests agreeing on
random_state and max_features, applied to data of equal shape, plan identical
feature-subset and row-bootstrap index sequences for every tree index; and
the tree's generator state depends on base_seed and tree_index only through
the derived seed base_seed + tree_index. -/
theorem C3_sampling_plan_pure (R : RNGSpec) (F G : RandomForestClassifierCustom)
    (i : ℕ) (X Y : Mat)
    (hrs : F.random_state = G.random_state) (hmf : F.max_features = G.max_features)
    (hr : nrows X = nrows Y) (hc : ncols X = ncols Y) :
    samplingOfFitLoop R F.random_state i (nrows X) (ncols X) F.max_features =
      samplingOfFitLoop R G.random_state i (nrows Y) (ncols Y) G.max_features ∧
    ∀ (rs1 : ℤ) (i1 : ℕ) (rs2 : ℤ) (i2 rows cols mf : ℕ),
      R.seedState (rs1 + i1) = R.seedState (rs2 + i2) →
      samplingOfFitLoop R rs1 i1 rows cols mf =
        samplingOfFitLoop R rs2 i2 rows cols mf := by
  constructor
  · rw [hrs, hmf, hr, hc]
  · intro rs1 i1 rs2 i2 rows cols mf h
    unfold samplingOfFitLoop npChoiceNoRep
    rw [h]

/-- C3 witness: the purity statement instantiated on a concrete generator,
forest and matrix. -/
theorem C3_witness :
    ((RandomForestClassifierCustom.init 1 none 1 0).random_state =
        (RandomForestClassifierCustom.init 1 none 1 0).random_state ∧
      (RandomForestClassifierCustom.init 1 none 1 0).max_features =
        (RandomForestClassifierCustom.init 1 none 1 0).max_features ∧
      nrows [[1]] = nrows [[2]] ∧ ncols [[1]] = ncols [[2]]) ∧
    (samplingOfFitLoop rngA (RandomForestClassifierCustom.init 1 none 1 0).random_state 0
        (nrows [[1]]) (ncols [[1]]) (RandomForestClassifierCustom.init 1 none 1 0).max_features =
      samplingOfFitLoop rngA (RandomForestClassifierCustom.init 1 none 1 0).random_state 0
        (nrows [[2]]) (ncols [[2]]) (RandomForestClassifierCustom.init 1 none 1 0).max_features ∧
    ∀ (rs1 : ℤ) (i1 : ℕ) (rs2 : ℤ) (i2 rows cols mf : ℕ),
      rngA.seedState (rs1 + i1) = rngA.seedState (rs2 + i2) →
      samplingOfFitLoop rngA rs1 i1 rows cols mf =
        samplingOfFitLoop rngA rs2 i2 rows cols mf) :=
  ⟨⟨rfl, rfl, rfl, rfl⟩,
    C3_sampling_plan_pure rngA (RandomForestClassifierCustom.init 1 none 1 0)
      (RandomForestClassifierCustom.init 1 none 1 0) 0 [[1]] [[2]] rfl rfl rfl rfl⟩

lemma samplingOfFitLoop_ok (R : RNGSpec) (rs : ℤ) (i rows cols mf : ℕ)
    (hmf : mf ≤ cols) (hrows : 0 < rows) :
    ∃ feat_ids x_ids, samplingOfFitLoop R rs i rows cols mf = .ok (feat_ids, x_ids) ∧
      x_ids.length = rows ∧ (∀ v ∈ x_ids, v < rows) ∧
      feat_ids.length = mf ∧ feat_ids.Nodup ∧ ∀ v ∈ feat_ids, v < cols := by
  unfold samplingOfFitLoop npChoiceNoRep npChoiceRep
  rw [if_pos hmf]
  simp only [exBind_ok]
  rw [if_pos hrows]
  simp only [exBind_ok, exPure_eq_ok]
  exact ⟨_, _, rfl, R.choiceRep_length _ rows rows hrows, R.choiceRep_lt _ rows rows hrows,
    R.choiceNoRep_length _ cols mf hmf, R.choiceNoRep_nodup _ cols mf hmf,
    R.choiceNoRep_lt _ cols mf hmf⟩

/-- C9: for every tree index, the planned bootstrap row-index sequence has
length exactly row_count with every value in [0, row_count) (drawn with
replacement from the generator), and the planned feature subset has exactly
max_features distinct values in [0, feature_count) (drawn without
replacement). -/
theorem C9_sampling_plan_shapes (R : RNGSpec) (rs : ℤ) (i rows cols mf : ℕ)
    (hmf : mf ≤ cols) (hrows : 0 < rows) :
    ∃ feat_ids x_ids, samplingOfFitLoop R rs i rows cols mf = .ok (feat_ids, x_ids) ∧
      x_ids.length = rows ∧ (∀ v ∈ x_ids, v < rows) ∧
      feat_ids.length = mf ∧ feat_ids.Nodup ∧ ∀ v ∈ feat_ids, v < cols :=
  samplingOfFitLoop_ok R rs i rows cols mf hmf hrows

/-- C9 witness: the sampling-shape statement at row_count 10, feature_count 5,
max_features 2, the shape of the end-to-end scenario of the specification. -/
theorem C9_witness :
    ((2 : ℕ) ≤ 5 ∧ (0 : ℕ) < 10) ∧
    ∃ feat_ids x_ids, samplingOfFitLoop rngA 42 0 10 5 2 = .ok (feat_ids, x_ids) ∧
      x_ids.length = 10 ∧ (∀ v ∈ x_ids, v < 10) ∧
      feat_ids.length = 2 ∧ feat_ids.Nodup ∧ ∀ v ∈ feat_ids, v < 5 :=
  ⟨⟨by decide, by decide⟩,
    C9_sampling_plan_shapes rngA 42 0 10 5 2 (by decide) (by decide)⟩

/-- C10: in each per-tree unit the feature subset is drawn first and the row
bootstrap is drawn from the same stream in the state the feature draw left
behind; consequently there is a generator under which changing max_features
alone changes the planned bootstrap rows. -/
theorem C10_feature_draw_precedes_bootstrap :
    (∀ (R : RNGSpec) (rs : ℤ) (i rows cols mf : ℕ),
      samplingOfFitLoop R rs i rows cols mf =
        (npChoiceNoRep R (R.seedState (rs + i)) cols mf >>= fun fs =>
          npChoiceRep R fs.2 rows rows >>= fun xs => pure (fs.1, xs.1))) ∧
    ∃ (R : RNGSpec) (rs : ℤ) (i rows cols mf1 mf2 : ℕ) (p1 p2 : List ℕ × List ℕ),
      mf1 ≠ mf2 ∧
      samplingOfFitLoop R rs i rows cols mf1 = .ok p1 ∧
      samplingOfFitLoop R rs i rows cols mf2 = .ok p2 ∧
      p1.2 ≠ p2.2 :=
  ⟨fun _ _ _ _ _ _ => rfl,
    rngA, 0, 0, 2, 3, 1, 2, ([0], [0, 0]), ([0, 1], [1, 1]),
    by decide, rfl, rfl, by decide⟩

/-- C4: with the generator model, base learner, data and seed fixed, fit
followed by predict_proba is deterministic — running it twice gives the same
output — and the worker count does not alter the result: any two nonzero
n_jobs values give equal fitted state and equal predict_proba output. -/
theorem C4_determinism_and_worker_invariance (R : RNGSpec) (B : BaseLearner)
    (F : RandomForestClassifierCustom) (X : Mat) (y : List ℤ) (Xq : Mat)
    (nj1 nj2 : ℕ) (h1 : nj1 ≠ 0) (h2 : nj2 ≠ 0) :
    fitS R B F X y nj1 = fitS R B F X y nj1 ∧
    fitS R B F X y nj1 = fitS R B F X y nj2 ∧
    predictProbaS (fitS R B F X y nj1).1 Xq nj1 =
      predictProbaS (fitS R B F X y nj2).1 Xq nj2 := by
  have hfit : fitS R B F X y nj1 = fitS R B F X y nj2 := by
    unfold fitS
    rw [if_neg h1, if_neg h2]
  refine ⟨rfl, hfit, ?_⟩
  rw [hfit]
  unfold predictProbaS
  rw [if_neg h1, if_neg h2]

/-- C4 witness: determinism and worker-count invariance evaluated with worker
limits 1 and 4 on a concrete forest. -/
theorem C4_witness :
    ((1 : ℕ) ≠ 0 ∧ (4 : ℕ) ≠ 0) ∧
    (fitS rngA learnerOk (RandomForestClassifierCustom.init 2 none 1 7) [[1], [2]] [0, 1] 1 =
      fitS rngA learnerOk (RandomForestClassifierCustom.init 2 none 1 7) [[1], [2]] [0, 1] 1 ∧
    fitS rngA learnerOk (RandomForestClassifierCustom.init 2 none 1 7) [[1], [2]] [0, 1] 1 =
      fitS rngA learnerOk (RandomForestClassifierCustom.init 2 none 1 7) [[1], [2]] [0, 1] 4 ∧
    predictProbaS (fitS rngA learnerOk (RandomForestClassifierCustom.init 2 none 1 7)
        [[1], [2]] [0, 1] 1).1 [[3]] 1 =
      predictProbaS (fitS rngA learnerOk (RandomForestClassifierCustom.init 2 none 1 7)
        [[1], [2]] [0, 1] 4).1 [[3]] 4) :=
  ⟨⟨by decide, by decide⟩,
    C4_determinism_and_worker_invariance rngA learnerOk
      (RandomForestClassifierCustom.init 2 none 1 7) [[1], [2]] [0, 1] [[3]] 1 4
      (by decide) (by decide)⟩

lemma fitS_state_cases (R : RNGSpec) (B : BaseLearner)
    (F : RandomForestClassifierCustom) (X : Mat) (y : List ℤ) (nj : ℕ) :
    ((fitS R B F X y nj).1.trees = F.trees ∧
      (fitS R B F X y nj).1.feat_ids_by_tree = F.feat_ids_by_tree ∧
      (fitS R B F X y nj).1.classes_ = some (sortedUnique y)) ∨
    (fitS R B F X y nj).2 = none := by
  by_cases hnj : nj = 0
  · simp only [fitS, if_pos hnj]
    exact Or.inl (by simp)
  · simp only [fitS, if_neg hnj]
    cases hcol : collect ((List.range F.n_estimators).map fun i =>
        fitLoop R B { F with classes_ := some (sortedUnique y) } i X y) with
    | error e => exact Or.inl ⟨rfl, rfl, rfl⟩
    | ok results =>
      cases results with
      | nil => exact Or.inl ⟨rfl, rfl, rfl⟩
      | cons a t => exact Or.inr rfl

/-- C5 (amended): if any per-tree unit fails during a re-fit of an
already-fitted forest, the error is surfaced and the TreeSlot state (trees and
feat_ids_by_tree) is left intact, but the ClassRegistry is not: classes_ has
already been overwritten with the sorted distinct labels of the new y before
the workers were dispatched. -/
theorem C5_failed_refit_keeps_trees_overwrites_registry (R : RNGSpec)
    (B : BaseLearner) (F : RandomForestClassifierCustom) (X : Mat) (y : List ℤ)
    (nj : ℕ) (h : (fitS R B F X y nj).2 ≠ none) :
    (fitS R B F X y nj).1.trees = F.trees ∧
    (fitS R B F X y nj).1.feat_ids_by_tree = F.feat_ids_by_tree ∧
    (fitS R B F X y nj).1.classes_ = some (sortedUnique y) := by
  rcases fitS_state_cases R B F X y nj with hkeep | hnone
  · exact hkeep
  · exact absurd hnone h

/-- C5 counterexample: re-fitting the already-fitted prefitForest with an
always-failing base learner on new labels [5] surfaces an error and keeps the
trees, but the ClassRegistry is overwritten from [0, 1] to [5] — the
previously fitted state is not left intact. -/
theorem C5_counterexample :
    (fitS rngA learnerFail prefitForest [[1]] [5] 1).2 = some PyError.valueError ∧
    prefitForest.classes_ = some [0, 1] ∧
    (fitS rngA learnerFail prefitForest [[1]] [5] 1).1.classes_ = some [5] ∧
    (fitS rngA learnerFail prefitForest [[1]] [5] 1).1.trees = prefitForest.trees :=
  ⟨rfl, rfl, rfl, rfl⟩

/-- C5 witness: the amended statement evaluated on the concrete failing
re-fit. -/
theorem C5_witness :
    (fitS rngA learnerFail prefitForest [[1]] [5] 1).2 ≠ none ∧
    ((fitS rngA learnerFail prefitForest [[1]] [5] 1).1.trees = prefitForest.trees ∧
    (fitS rngA learnerFail prefitForest [[1]] [5] 1).1.feat_ids_by_tree =
      prefitForest.feat_ids_by_tree ∧
    (fitS rngA learnerFail prefitForest [[1]] [5] 1).1.classes_ =
      some (sortedUnique [5])) :=
  ⟨by decide,
    C5_failed_refit_keeps_trees_overwrites_registry rngA learnerFail prefitForest
      [[1]] [5] 1 (by decide)⟩

lemma fitLoop_ok (R : RNGSpec) (B : BaseLearner) (F : RandomForestClassifierCustom)
    (i : ℕ) (X : Mat) (y : List ℤ)
    (hB : ∀ md mf rs Xs ys, ∃ t, B.fitTree md mf rs Xs ys = .ok t)
    (hmf : F.max_features ≤ ncols X) (hrow : 0 < nrows X)
    (hy : nrows X ≤ y.length)
    (hrect : ∀ row ∈ X, row.length = ncols X) :
    ∃ res, fitLoop R B F i X y = .ok res := by
  obtain ⟨feat_ids, x_ids, hplan, hxlen, hxlt, hflen, hfnd, hflt⟩ :=
    samplingOfFitLoop_ok R F.random_state i (nrows X) (ncols X) F.max_features hmf hrow
  unfold fitLoop
  rw [hplan]
  simp only [exBind_ok]
  have hxall : x_ids.all (fun j => j < nrows X) := by
    rw [List.all_eq_true]
    intro v hv
    exact decide_eq_true (hxlt v hv)
  unfold npRows
  rw [if_pos hxall]
  simp only [exBind_ok]
  have hxnil : x_ids ≠ [] := by
    intro hcon
    rw [hcon] at hxlen
    exact absurd hxlen.symm (Nat.pos_iff_ne_zero.mp hrow)
  obtain ⟨x0, xt, rfl⟩ := List.exists_cons_of_ne_nil hxnil
  have hx0 : x0 < nrows X := hxlt x0 (by simp)
  have hhead : (X.getD x0 []).length = ncols X := by
    rw [List.getD_eq_getElem X [] hx0]
    exact hrect _ (List.getElem_mem hx0)
  have hncols : ncols ((x0 :: xt).map fun j => X.getD j []) = ncols X := by
    show ((((x0 :: xt).map fun j => X.getD j []).headD []).length) = ncols X
    simp only [List.map_cons, List.headD_cons]
    exact hhead
  have hfall : feat_ids.all (fun j => j < ncols ((x0 :: xt).map fun j => X.getD j [])) := by
    rw [List.all_eq_true]
    intro v hv
    rw [hncols]
    exact decide_eq_true (hflt v hv)
  unfold npCols
  rw [if_pos hfall]
  simp only [exBind_ok]
  have hyall : (x0 :: xt).all (fun j => j < y.length) := by
    rw [List.all_eq_true]
    intro v hv
    exact decide_eq_true (lt_of_lt_of_le (hxlt v hv) hy)
  unfold npIndex
  rw [if_pos hyall]
  simp only [exBind_ok]
  obtain ⟨t, ht⟩ := hB F.max_depth F.max_features F.random_state
    (colsRestrict ((x0 :: xt).map fun j => X.getD j []) feat_ids)
    ((x0 :: xt).map fun j => y.getD j 0)
  rw [ht]
  simp only [exBind_ok, exPure_eq_ok]
  exact ⟨_, rfl⟩

lemma collect_ok_exists {α β : Type} (l : List α) (f : α → Except PyError β)
    (h : ∀ a ∈ l, ∃ b, f a = .ok b) :
    ∃ bs, collect (l.map f) = .ok bs ∧ bs.length = l.length := by
  induction l with
  | nil => exact ⟨[], rfl, rfl⟩
  | cons a t ih =>
    obtain ⟨b, hb⟩ := h a (by simp)
    obtain ⟨bs, hbs, hlen⟩ := ih fun x hx => h x (by simp [hx])
    refine ⟨b :: bs, ?_, by simp [hlen]⟩
    simp only [List.map_cons]
    rw [hb, collect, hbs]
    rfl

lemma fitS_succeeds (R : RNGSpec) (B : BaseLearner)
    (F : RandomForestClassifierCustom) (X : Mat) (y : List ℤ) (nj : ℕ)
    (hnj : nj ≠ 0) (hn : 0 < F.n_estimators)
    (hB : ∀ md mf rs Xs ys, ∃ t, B.fitTree md mf rs Xs ys = .ok t)
    (hmf : F.max_features ≤ ncols X) (hrow : 0 < nrows X)
    (hy : nrows X ≤ y.length)
    (hrect : ∀ row ∈ X, row.length = ncols X) :
    (fitS R B F X y nj).2 = none := by
  simp only [fitS, if_neg hnj]
  obtain ⟨bs, hbs, hlen⟩ := collect_ok_exists (List.range F.n_estimators)
    (fun i => fitLoop R B { F with classes_ := some (sortedUnique y) } i X y)
    (fun i _ => fitLoop_ok R B { F with classes_ := some (sortedUnique y) } i X y
      hB hmf hrow hy hrect)
  rw [hbs]
  cases bs with
  | nil =>
    rw [List.length_range] at hlen
    exact absurd hlen.symm (Nat.pos_iff_ne_zero.mp hn)
  | cons b t => rfl

/-- C6 counterexample: fit with a 2-row X and a length-3 y succeeds with no
error at all, and predict_proba on the resulting forest with a 2-column X
(the fit saw 1 column) also succeeds — no ShapeError is raised in either
direction. -/
theorem C6_counterexample :
    nrows [[1], [2]] ≠ ([0, 1, 7] : List ℤ).length ∧
    (fitS rngA learnerOk (RandomForestClassifierCustom.init 1 none 1 0)
      [[1], [2]] [0, 1, 7] 1).2 = none ∧
    ncols [[1], [2]] ≠ ncols [[1, 2]] ∧
    predictProbaS (fitS rngA learnerOk (RandomForestClassifierCustom.init 1 none 1 0)
      [[1], [2]] [0, 1, 7] 1).1 [[1, 2]] 1 = .ok [[1, 0]] := by
  refine ⟨by decide, rfl, by decide, ?_⟩
  show predictProbaS
      { n_estimators := 1, max_depth := none, max_features := 1, random_state := 0,
        trees := [constTree [[1, 0]]], feat_ids_by_tree := [[0]],
        classes_ := some [0, 1, 7] } [[1, 2]] 1 = .ok [[1, 0]]
  norm_num [predictProbaS, collect, elemAt, predictProbaLoop, npCols, npMeanAxis0, entry,
    constTree, colsRestrict, ncols, List.range_succ, Except.map, exBind_ok, exPure_eq_ok]

/-- C6 (amended): the code performs no shape validation and no ShapeError
exists: fit succeeds whenever the planned bootstrap and feature indices are in
range — in particular for any y at least as long as X, with no requirement
that X's row count equal the length of y — and predict_proba succeeds on any
X whose column count covers the stored feature indices, with no comparison
against the column count seen at fit time. -/
theorem C6_no_shape_validation (R : RNGSpec) (B : BaseLearner)
    (F : RandomForestClassifierCustom) (X : Mat) (y : List ℤ) (nj : ℕ)
    (hnj : nj ≠ 0) (hn : 0 < F.n_estimators)
    (hB : ∀ md mf rs Xs ys, ∃ t, B.fitTree md mf rs Xs ys = .ok t)
    (hmf : F.max_features ≤ ncols X) (hrow : 0 < nrows X)
    (hy : nrows X ≤ y.length)
    (hrect : ∀ row ∈ X, row.length = ncols X)
    (G : RandomForestClassifierCustom) (Xq : Mat) (njq : ℕ) (hnjq : njq ≠ 0)
    (hts : G.trees.length = G.n_estimators)
    (hfs : G.feat_ids_by_tree.length = G.n_estimators)
    (hcols : ∀ fids ∈ G.feat_ids_by_tree, ∀ j ∈ fids, j < ncols Xq) :
    (fitS R B F X y nj).2 = none ∧
    ∃ M, predictProbaS G Xq njq = .ok M :=
  ⟨fitS_succeeds R B F X y nj hnj hn hB hmf hrow hy hrect,
    ⟨_, predictProbaS_eq_mean G Xq njq hnjq hts hfs hcols⟩⟩

/-- C6 witness: the amended statement on a concrete row-count mismatch (2-row
X against a length-3 y) and a concrete column-count mismatch at prediction. -/
theorem C6_witness :
    ((1 : ℕ) ≠ 0 ∧ 0 < (RandomForestClassifierCustom.init 1 none 1 0).n_estimators ∧
      (∀ md mf rs Xs ys, ∃ t, learnerOk.fitTree md mf rs Xs ys = .ok t) ∧
      (RandomForestClassifierCustom.init 1 none 1 0).max_features ≤ ncols [[1], [2]] ∧
      0 < nrows [[1], [2]] ∧ nrows [[1], [2]] ≤ ([0, 1, 7] : List ℤ).length ∧
      (∀ row ∈ ([[1], [2]] : Mat), row.length = ncols [[1], [2]]) ∧
      prefitForest.trees.length = prefitForest.n_estimators ∧
      prefitForest.feat_ids_by_tree.length = prefitForest.n_estimators ∧
      ∀ fids ∈ prefitForest.feat_ids_by_tree, ∀ j ∈ fids, j < ncols [[1, 2]]) ∧
    ((fitS rngA learnerOk (RandomForestClassifierCustom.init 1 none 1 0)
      [[1], [2]] [0, 1, 7] 1).2 = none ∧
    ∃ M, predictProbaS prefitForest [[1, 2]] 1 = .ok M) :=
  ⟨⟨by decide, by decide, fun _ _ _ _ _ => ⟨constTree [[1, 0]], rfl⟩, by decide, by decide,
      by decide, by decide, by decide, by decide, by decide⟩,
    C6_no_shape_validation rngA learnerOk (RandomForestClassifierCustom.init 1 none 1 0)
      [[1], [2]] [0, 1, 7] 1 (by decide) (by decide)
      (fun _ _ _ _ _ => ⟨constTree [[1, 0]], rfl⟩) (by decide) (by decide) (by decide)
      (by decide) prefitForest [[1, 2]] 1 (by decide) (by decide) (by decide) (by decide)⟩

/-- C7 counterexample: predict_proba on a freshly constructed, never fitted
forest raises IndexError (indexing the empty trees list), which is not
NotFittedError. -/
theorem C7_counterexample :
    predictProbaS (RandomForestClassifierCustom.init 10 none 2 144) [[1, 2]] 1 =
      .error PyError.indexError ∧
    PyError.indexError ≠ PyError.notFittedError :=
  ⟨rfl, by decide⟩

/-- C7 (amended): on a forest on which no successful fit has been performed,
predict and predict_proba raise IndexError from reading trees[i] in the
submission loop (for any positive n_estimators), not NotFittedError — no
fitted-state check exists. -/
theorem C7_unfitted_raises_index_error (n : ℕ) (md : Option ℕ) (mf : ℕ)
    (rs : ℤ) (X : Mat) (nj : ℕ) (hn : 0 < n) (hnj : nj ≠ 0) :
    predictProbaS (RandomForestClassifierCustom.init n md mf rs) X nj =
      .error PyError.indexError ∧
    predictS (RandomForestClassifierCustom.init n md mf rs) X nj =
      .error PyError.indexError := by
  obtain ⟨m, rfl⟩ := Nat.exists_eq_succ_of_ne_zero (Nat.pos_iff_ne_zero.mp hn)
  have h1 : predictProbaS (RandomForestClassifierCustom.init (m + 1) md mf rs) X nj =
      .error PyError.indexError := by
    unfold predictProbaS
    rw [if_neg hnj]
    simp only [RandomForestClassifierCustom.init]
    rw [List.range_succ_eq_map]
    rfl
  refine ⟨h1, ?_⟩
  unfold predictS
  rw [h1]
  rfl

/-- C7 witness: the amended statement evaluated on the constructor's default
shape (10 estimators). -/
theorem C7_witness :
    ((0 : ℕ) < 10 ∧ (1 : ℕ) ≠ 0) ∧
    (predictProbaS (RandomForestClassifierCustom.init 10 none 2 144) [[1, 2]] 1 =
      .error PyError.indexError ∧
    predictS (RandomForestClassifierCustom.init 10 none 2 144) [[1, 2]] 1 =
      .error PyError.indexError) :=
  ⟨⟨by decide, by decide⟩,
    C7_unfitted_raises_index_error 10 none 2 144 [[1, 2]] 1 (by decide) (by decide)⟩

/-- C8 counterexample: no validation happens at construction — both offending
configurations construct fine, and the errors that do surface during fit are
ValueError, not ConfigError: max_features 6 against 5 feature columns fails
inside the first per-tree unit (mid-run), and tree_count 0 fails at the final
zip unpacking. -/
theorem C8_counterexample :
    (fitS rngA learnerOk (RandomForestClassifierCustom.init 1 none 6 0)
      [[1, 2, 3, 4, 5]] [0] 1).2 = some PyError.valueError ∧
    (fitS rngA learnerOk (RandomForestClassifierCustom.init 0 none 2 0)
      [[1, 2, 3, 4, 5]] [0] 1).2 = some PyError.valueError ∧
    PyError.valueError ≠ PyError.configError :=
  ⟨rfl, rfl, by decide⟩

/-- C8 (amended): the constructor stores any configuration unvalidated and no
ConfigError exists; with max_features exceeding the feature count the fit
call surfaces ValueError from np.random.choice inside the first per-tree
unit, and with tree_count 0 the fit call surfaces ValueError when unpacking
the empty result list — in both cases during fit, not at construction. -/
theorem C8_no_config_validation (R : RNGSpec) (B : BaseLearner)
    (F : RandomForestClassifierCustom) (X : Mat) (y : List ℤ) (nj : ℕ) :
    (nj ≠ 0 → 0 < F.n_estimators → ncols X < F.max_features →
      (fitS R B F X y nj).2 = some PyError.valueError) ∧
    (F.n_estimators = 0 → (fitS R B F X y nj).2 = some PyError.valueError) := by
  constructor
  · intro hnj hn hmf
    have hunit : fitLoop R B { F with classes_ := some (sortedUnique y) } 0 X y =
        .error PyError.valueError := by
      unfold fitLoop samplingOfFitLoop npChoiceNoRep
      dsimp only
      rw [if_neg (not_le.mpr hmf)]
      rfl
    have hcoll := collect_range_error_head F.n_estimators hn
      (fun i => fitLoop R B { F with classes_ := some (sortedUnique y) } i X y)
      PyError.valueError hunit
    simp only [fitS, if_neg hnj]
    rw [hcoll]
  · intro h0
    by_cases hnj : nj = 0
    · simp only [fitS, if_pos hnj]
    · simp only [fitS, if_neg hnj, h0, List.range_zero, List.map_nil]
      rfl

/-- C8 witness: the amended statement at the specification's two offending
configurations (max_features 6 with 5 columns; tree_count 0). -/
theorem C8_witness :
    ((1 : ℕ) ≠ 0 ∧ 0 < (RandomForestClassifierCustom.init 1 none 6 0).n_estimators ∧
      ncols [[1, 2, 3, 4, 5]] < (RandomForestClassifierCustom.init 1 none 6 0).max_features ∧
      (fitS rngA learnerOk (RandomForestClassifierCustom.init 1 none 6 0)
        [[1, 2, 3, 4, 5]] [0] 1).2 = some PyError.valueError) ∧
    ((RandomForestClassifierCustom.init 0 none 2 0).n_estimators = 0 ∧
      (fitS rngA learnerOk (RandomForestClassifierCustom.init 0 none 2 0)
        [[1, 2, 3, 4, 5]] [0] 1).2 = some PyError.valueError) :=
  ⟨⟨by decide, by decide, by decide,
      (C8_no_config_validation rngA learnerOk (RandomForestClassifierCustom.init 1 none 6 0)
        [[1, 2, 3, 4, 5]] [0] 1).1 (by decide) (by decide) (by decide)⟩,
    ⟨by decide,
      (C8_no_config_validation rngA learnerOk (RandomForestClassifierCustom.init 0 none 2 0)
        [[1, 2, 3, 4, 5]] [0] 1).2 (by decide)⟩⟩
